import Mathlib

/-!
Shallow embedding of `src/oneGraphClient.ts` (netlify-onegraph-internal).

The module is a thin client over a generated GraphQL client plus one raw
HTTP schema fetch.  We model:

* JavaScript event values (`Record<string, any>` with a `__typename`
  discriminant and a `payload` field) as an inductive `JsValue`, plus a
  heap-based model (`EventHeap`) in which payload pointers may form
  cycles, as arbitrary JavaScript object graphs can;
* the generated GraphQL client as a record of functions, each returning a
  `{data, errors}` envelope (`GraphQLResult`); nested optional-chaining
  field access (`a?.b?.c`) becomes `Option.bind` chains;
* each exported operation as a pure function that also returns the RPC
  request(s) it issued, so that theorems can talk about what was sent to
  the server;
* the raw schema fetch with an explicit environment for `fetch`,
  `JSON.parse` and `buildClientSchema`; thrown exceptions become
  `Except.error`, and `internalConsole` logging becomes a `List String`
  of emitted lines.
-/

namespace OneGraphClient

/-- A JavaScript value as far as `friendlyEventName` can observe it:
either `undefined`/`null` (destructuring it throws), or an object with an
optional string `__typename` field and a `payload` field (which is
`undefined` when absent). -/
inductive JsValue where
  | undef
  | obj (typename : Option String) (payload : JsValue)
deriving Repr, DecidableEq

/-- String interpolation of a possibly-undefined value, as in the
template literal of the `default` switch branch. -/
def jsInterpolate : Option String → String
  | none => "undefined"
  | some s => s

/-- The TypeError thrown by `const { __typename, payload } = event` when
`event` is `undefined` or `null`. -/
def destructureError : Except String String :=
  Except.error "TypeError: cannot destructure event because it is undefined"

/-- `friendlyEventName` from the source: a switch on `event.__typename`,
where the `OneGraphNetlifyCliSessionTestEvent` case recurses into
`event.payload` with no depth guard, two cases return fixed labels, and
the default returns a template literal containing the raw discriminant. -/
def friendlyEventName : JsValue → Except String String
  | .undef => destructureError
  | .obj __typename payload =>
    if __typename = some "OneGraphNetlifyCliSessionTestEvent" then
      friendlyEventName payload
    else if __typename = some "OneGraphNetlifyCliSessionGenerateHandlerEvent" then
      Except.ok "Generate handler as Netlify function "
    else if __typename = some "OneGraphNetlifyCliSessionPersistedLibraryUpdatedEvent" then
      Except.ok "Sync Netlify Graph operations library"
    else
      Except.ok ("Unrecognized event (" ++ jsInterpolate __typename ++ ")")

/-- A heap of JavaScript event objects: address `a` has a `__typename`
field `typename a` and a `payload` field `payload a` (`none` =
`undefined`, `some b` = a pointer to the object at address `b`).  Unlike
`JsValue`, pointers may form cycles, exactly as JavaScript objects may. -/
structure EventHeap where
  typename : Nat → Option String
  payload : Nat → Option Nat

/-- Running `friendlyEventName` over an `EventHeap` value with an explicit
step budget.  `none` means the budget ran out before the call returned —
the source has no such budget, so an input on which every budget runs out
is an input on which the source recurses forever. -/
def friendlyEventNameRun (h : EventHeap) : Nat → Option Nat → Option (Except String String)
  | 0, _ => none
  | _ + 1, none => some destructureError
  | fuel + 1, some a =>
    if h.typename a = some "OneGraphNetlifyCliSessionTestEvent" then
      friendlyEventNameRun h fuel (h.payload a)
    else if h.typename a = some "OneGraphNetlifyCliSessionGenerateHandlerEvent" then
      some (Except.ok "Generate handler as Netlify function ")
    else if h.typename a = some "OneGraphNetlifyCliSessionPersistedLibraryUpdatedEvent" then
      some (Except.ok "Sync Netlify Graph operations library")
    else
      some (Except.ok ("Unrecognized event (" ++ jsInterpolate (h.typename a) ++ ")"))

/-- `friendlyEventName` diverges on the value at address `a` of heap `h`:
no step budget is enough for the call to return. -/
def FriendlyEventNameDiverges (h : EventHeap) (a : Nat) : Prop :=
  ∀ fuel, friendlyEventNameRun h fuel (some a) = none

/-- A heap holding a single `OneGraphNetlifyCliSessionTestEvent` whose
`payload` field points back at the event itself. -/
def cyclicTestEventHeap : EventHeap :=
  { typename := fun _ => some "OneGraphNetlifyCliSessionTestEvent"
    payload := fun a => some a }

/-- The heap value at `p` is the finite tree `v`: the payload chain is
acyclic and bottoms out. -/
inductive Represents (h : EventHeap) : Option Nat → JsValue → Prop where
  | undef : Represents h none JsValue.undef
  | obj (a : Nat) (pv : JsValue) :
      Represents h (h.payload a) pv →
      Represents h (some a) (JsValue.obj (h.typename a) pv)

/-- Size of a finite event tree, used as a sufficient step budget. -/
def jsSize : JsValue → Nat
  | .undef => 1
  | .obj _ payload => jsSize payload + 1

/-- A two-object heap: address 0 holds a
`OneGraphNetlifyCliSessionTestEvent` whose payload points at address 1, a
`OneGraphNetlifyCliSessionGenerateHandlerEvent` with no payload. -/
def finiteTestEventHeap : EventHeap :=
  { typename := fun a =>
      if a = 0 then some "OneGraphNetlifyCliSessionTestEvent"
      else some "OneGraphNetlifyCliSessionGenerateHandlerEvent"
    payload := fun a => if a = 0 then some 1 else none }

/-- The finite tree held at address 0 of `finiteTestEventHeap`. -/
def finiteTestEventValue : JsValue :=
  JsValue.obj (some "OneGraphNetlifyCliSessionTestEvent")
    (JsValue.obj (some "OneGraphNetlifyCliSessionGenerateHandlerEvent") JsValue.undef)

/-- The `{data, errors}` envelope every generated-client call resolves
to.  `data` may be null/undefined; `errors`, when present, is the
GraphQL transport-level error array. -/
structure GraphQLResult (α : Type) where
  data : Option α
  errors : Option (List String)

/-- The optional second argument of every generated-client call: the
routing context `{ siteId }`. -/
structure SiteIdContext where
  siteId : String
deriving Repr, DecidableEq

/-- The module-level constant used as the routing context of
`fetchPersistedQuery` and `upsertAppForSite`. -/
def ONEDASH_APP_ID : String := "0b066ba6-ed39-4db8-a497-ba0be34d5b2a"

/-- An event delivered to a CLI session (`Record<string, any>` in the
source). -/
abbrev OneGraphCliEvent := JsValue

structure PersistedQuery where
  id : String
  query : String
  description : Option String
  allowedOperationNames : List String
  tags : List String

structure FetchPersistedQueryInput where
  nfToken : String
  appId : String
  id : String

structure FetchPersistedQueryOneGraph where
  persistedQuery : Option PersistedQuery

structure FetchPersistedQueryData where
  oneGraph : Option FetchPersistedQueryOneGraph

structure FetchCLISessionQueryInput where
  nfToken : String
  sessionId : String
  first : Int

structure NetlifyCliSession where
  events : Option (List OneGraphCliEvent)

structure FetchCLISessionOneGraph where
  netlifyCliSession : Option NetlifyCliSession

structure FetchCLISessionData where
  oneGraph : Option FetchCLISessionOneGraph

inductive SessionStatus where
  | ACTIVE
  | INACTIVE
deriving Repr, DecidableEq

/-- The `MiniSession` type exported by the source. -/
structure MiniSession where
  id : String
  status : SessionStatus
  createdAt : String
  updatedAt : String

structure CreateCLISessionInput where
  nfToken : String
  appId : String
  name : String
  metadata : List (String × String)

structure CreateNetlifyCliSessionPayload where
  session : Option MiniSession

structure CreateCLISessionOneGraph where
  createNetlifyCliSession : Option CreateNetlifyCliSessionPayload

structure CreateCLISessionData where
  oneGraph : Option CreateCLISessionOneGraph

structure UpdateCLISessionMetadataInput where
  nfToken : String
  sessionId : String
  metadata : List (String × String)

structure UpdateNetlifyCliSessionPayload where
  session : Option MiniSession

structure UpdateCLISessionOneGraph where
  updateNetlifyCliSession : Option UpdateNetlifyCliSessionPayload

structure UpdateCLISessionData where
  oneGraph : Option UpdateCLISessionOneGraph

structure AckCLISessionEventMutationInput where
  nfToken : String
  sessionId : String
  eventIds : List String

structure AckCLISessionOneGraph where
  ackNetlifyCliEvents : Option JsValue

structure AckCLISessionData where
  oneGraph : Option AckCLISessionOneGraph

structure MarkCLISessionInput where
  nfToken : String
  id : String

structure UpsertAppForSiteInput where
  nfToken : String
  siteId : String

structure NetlifyApp where
  id : Option String

structure UpsertAppForNetlifySitePayload where
  app : Option NetlifyApp

structure UpsertAppOneGraph where
  upsertAppForNetlifySite : Option UpsertAppForNetlifySitePayload

structure UpsertAppData where
  oneGraph : Option UpsertAppOneGraph

structure GraphQLSchemaMeta where
  services : Option (List String)

structure AppWithSchema where
  graphQLSchema : Option GraphQLSchemaMeta

structure FetchAppSchemaOneGraph where
  app : Option AppWithSchema

structure FetchAppSchemaData where
  oneGraph : Option FetchAppSchemaOneGraph

structure FetchAppSchemaInput where
  nfToken : String
  appId : Option String

structure CreateNewSchemaInput where
  appId : String
  enabledServices : List String
  setAsDefaultForApp : Bool

structure CreateNewSchemaMutationInput where
  nfToken : String
  input : CreateNewSchemaInput

structure CreateNewSchemaData where
  oneGraph : Option JsValue

/-- The generated GraphQL client (`GeneratedClient` import in the
source): one function per named operation, each taking the variables
record and an optional `{ siteId }` routing context and resolving to a
`{data, errors}` envelope.  The envelope is always an object (never
`undefined`): the functions are total. -/
structure GeneratedClient where
  fetchPersistedQueryQuery :
    FetchPersistedQueryInput → Option SiteIdContext → GraphQLResult FetchPersistedQueryData
  fetchCLISessionQuery :
    FetchCLISessionQueryInput → Option SiteIdContext → GraphQLResult FetchCLISessionData
  executeCreateCLISessionMutation :
    CreateCLISessionInput → Option SiteIdContext → GraphQLResult CreateCLISessionData
  executeUpdateCLISessionMetadataMutation :
    UpdateCLISessionMetadataInput → Option SiteIdContext → GraphQLResult UpdateCLISessionData
  executeAckCLISessionEventMutation :
    AckCLISessionEventMutationInput → Option SiteIdContext → GraphQLResult AckCLISessionData
  executeMarkCLISessionActiveHeartbeat :
    MarkCLISessionInput → Option SiteIdContext → GraphQLResult UpdateCLISessionData
  executeMarkCLISessionInactive :
    MarkCLISessionInput → Option SiteIdContext → GraphQLResult UpdateCLISessionData
  executeUpsertAppForSiteMutation :
    UpsertAppForSiteInput → Option SiteIdContext → GraphQLResult UpsertAppData
  fetchAppSchemaQuery :
    FetchAppSchemaInput → Option SiteIdContext → GraphQLResult FetchAppSchemaData
  executeCreateNewSchemaMutation :
    CreateNewSchemaMutationInput → Option SiteIdContext → GraphQLResult CreateNewSchemaData

/-- `fetchPersistedQuery(authToken, appId, docId)`: one RPC with context
`{ siteId: ONEDASH_APP_ID }`, returning
`response.data?.oneGraph?.persistedQuery`.  The issued call is returned
alongside the value. -/
def fetchPersistedQuery (client : GeneratedClient) (authToken appId docId : String) :
    (FetchPersistedQueryInput × Option SiteIdContext) × Option PersistedQuery :=
  let vars : FetchPersistedQueryInput := { nfToken := authToken, appId := appId, id := docId }
  let ctx : Option SiteIdContext := some { siteId := ONEDASH_APP_ID }
  let response := client.fetchPersistedQueryQuery vars ctx
  let persistedQuery := (response.data.bind (·.oneGraph)).bind (·.persistedQuery)
  ((vars, ctx), persistedQuery)

/-- The options record of `fetchCliSession`; `desiredEventCount` is an
optional JavaScript number. -/
structure FetchCliSessionOptions where
  appId : String
  authToken : String
  sessionId : String
  desiredEventCount : Option Int

/-- JavaScript `x || d` for an optional number `x`: `undefined` and `0`
are falsy. -/
def jsOrInt (x : Option Int) (d : Int) : Int :=
  match x with
  | none => d
  | some n => if n = 0 then d else n

/-- The value bound to `session` by `fetchCliSession`:
`next.data?.oneGraph?.netlifyCliSession || []` — either the session
object or the empty-array fallback. -/
inductive SessionValue where
  | emptyList
  | session (s : NetlifyCliSession)

structure FetchCliSessionReturn where
  session : SessionValue
  errors : Option (List String)

/-- `fetchCliSession(options)`: defaults `desiredEventCount` with
`options.desiredEventCount || 1`, issues `fetchCLISessionQuery` with
`first: desiredEventCount || 1000` and context `{ siteId: appId }`, and
returns `{ session, errors: next.errors }` where `session` is
`next.data?.oneGraph?.netlifyCliSession || []`. -/
def fetchCliSession (client : GeneratedClient) (options : FetchCliSessionOptions) :
    (FetchCLISessionQueryInput × Option SiteIdContext) × FetchCliSessionReturn :=
  let desiredEventCount := jsOrInt options.desiredEventCount 1
  let vars : FetchCLISessionQueryInput :=
    { nfToken := options.authToken
      sessionId := options.sessionId
      first := if desiredEventCount = 0 then 1000 else desiredEventCount }
  let ctx : Option SiteIdContext := some { siteId := options.appId }
  let next := client.fetchCLISessionQuery vars ctx
  let session :=
    match (next.data.bind (·.oneGraph)).bind (·.netlifyCliSession) with
    | none => SessionValue.emptyList
    | some s => SessionValue.session s
  ((vars, ctx), { session := session, errors := next.errors })

structure FetchCliSessionEventsOptions where
  appId : String
  authToken : String
  sessionId : String

/-- The heterogeneous return of `fetchCliSessionEvents`: the error path
returns `next` (fields `session` and `errors`, no `events` field), the
happy path returns `{ events }` (no `errors` or `session` field).  An
absent field is `none`. -/
structure FetchCliSessionEventsReturn where
  events : Option (List OneGraphCliEvent)
  errors : Option (List String)
  session : Option SessionValue

/-- `fetchCliSessionEvents(options)`: delegates to `fetchCliSession` with
a hardcoded `desiredEventCount` of 1000; if `next.errors` is present
(arrays are truthy regardless of emptiness) it returns `next` unchanged,
otherwise it returns `{ events: next.session?.events || [] }`. -/
def fetchCliSessionEvents (client : GeneratedClient) (options : FetchCliSessionEventsOptions) :
    (FetchCLISessionQueryInput × Option SiteIdContext) × FetchCliSessionEventsReturn :=
  let desiredEventCount : Int := 1000
  let (call, next) := fetchCliSession client
    { appId := options.appId
      authToken := options.authToken
      sessionId := options.sessionId
      desiredEventCount := some desiredEventCount }
  if next.errors.isSome then
    (call, { events := none, errors := next.errors, session := some next.session })
  else
    let events :=
      match next.session with
      | .emptyList => ([] : List OneGraphCliEvent)
      | .session s => s.events.getD []
    (call, { events := some events, errors := none, session := none })

/-- `createCLISession(netlifyToken, appId, name, metadata)`: one RPC with
context `{ siteId: appId }`, returning
`result.data?.oneGraph?.createNetlifyCliSession?.session`. -/
def createCLISession (client : GeneratedClient) (netlifyToken appId name : String)
    (metadata : List (String × String)) :
    (CreateCLISessionInput × Option SiteIdContext) × Option MiniSession :=
  let payload : CreateCLISessionInput :=
    { nfToken := netlifyToken, appId := appId, name := name, metadata := metadata }
  let ctx : Option SiteIdContext := some { siteId := appId }
  let result := client.executeCreateCLISessionMutation payload ctx
  let session := ((result.data.bind (·.oneGraph)).bind (·.createNetlifyCliSession)).bind (·.session)
  ((payload, ctx), session)

/-- `updateCLISessionMetadata(netlifyToken, appId, sessionId, metadata)`:
one RPC with context `{ siteId: appId }`, returning
`result.data?.oneGraph?.updateNetlifyCliSession?.session`. -/
def updateCLISessionMetadata (client : GeneratedClient) (netlifyToken appId sessionId : String)
    (metadata : List (String × String)) :
    (UpdateCLISessionMetadataInput × Option SiteIdContext) × Option MiniSession :=
  let vars : UpdateCLISessionMetadataInput :=
    { nfToken := netlifyToken, sessionId := sessionId, metadata := metadata }
  let ctx : Option SiteIdContext := some { siteId := appId }
  let result := client.executeUpdateCLISessionMetadataMutation vars ctx
  let session := ((result.data.bind (·.oneGraph)).bind (·.updateNetlifyCliSession)).bind (·.session)
  ((vars, ctx), session)

/-- The input record of `ackCLISessionEvents`. -/
structure AckCLISessionEventsInput where
  appId : String
  authToken : String
  sessionId : String
  eventIds : List String

/-- `ackCLISessionEvents(input)`: unconditionally issues
`executeAckCLISessionEventMutation` with `{ nfToken, sessionId, eventIds }`
and context `{ siteId: appId }`, and returns
`result.data?.oneGraph?.ackNetlifyCliEvents`. -/
def ackCLISessionEvents (client : GeneratedClient) (input : AckCLISessionEventsInput) :
    (AckCLISessionEventMutationInput × Option SiteIdContext) × Option JsValue :=
  let vars : AckCLISessionEventMutationInput :=
    { nfToken := input.authToken, sessionId := input.sessionId, eventIds := input.eventIds }
  let ctx : Option SiteIdContext := some { siteId := input.appId }
  let result := client.executeAckCLISessionEventMutation vars ctx
  let events := (result.data.bind (·.oneGraph)).bind (·.ackNetlifyCliEvents)
  ((vars, ctx), events)

/-- The `{ errors, data }` record returned by both heartbeat wrappers. -/
structure HeartbeatReturn where
  errors : Option (List String)
  data : Option MiniSession

/-- `executeMarkCliSessionActiveHeartbeat(authToken, appId, sessionId)`:
one RPC with context `{ siteId: appId }`, returning
`{ errors: result.errors, data: result.data?.oneGraph?.updateNetlifyCliSession?.session }`. -/
def executeMarkCliSessionActiveHeartbeat (client : GeneratedClient)
    (authToken appId sessionId : String) :
    (MarkCLISessionInput × Option SiteIdContext) × HeartbeatReturn :=
  let vars : MarkCLISessionInput := { nfToken := authToken, id := sessionId }
  let ctx : Option SiteIdContext := some { siteId := appId }
  let result := client.executeMarkCLISessionActiveHeartbeat vars ctx
  let session := ((result.data.bind (·.oneGraph)).bind (·.updateNetlifyCliSession)).bind (·.session)
  ((vars, ctx), { errors := result.errors, data := session })

/-- `executeMarkCliSessionInactive(authToken, appId, sessionId)`: same
shape as the active heartbeat, against `executeMarkCLISessionInactive`. -/
def executeMarkCliSessionInactive (client : GeneratedClient)
    (authToken appId sessionId : String) :
    (MarkCLISessionInput × Option SiteIdContext) × HeartbeatReturn :=
  let vars : MarkCLISessionInput := { nfToken := authToken, id := sessionId }
  let ctx : Option SiteIdContext := some { siteId := appId }
  let result := client.executeMarkCLISessionInactive vars ctx
  let session := ((result.data.bind (·.oneGraph)).bind (·.updateNetlifyCliSession)).bind (·.session)
  ((vars, ctx), { errors := result.errors, data := session })

/-- JavaScript truthiness of a value of object type: an object is always
truthy (only `null`, `undefined`, `0`, `NaN` and `""` are falsy), and the
generated client resolves to the `{data, errors}` envelope object. -/
def jsTruthyObject {α : Type} (_ : GraphQLResult α) : Bool := true

/-- `ensureAppForSite(authToken, siteId)`: upserts the app (no routing
context), reads `upsertResult.data?.oneGraph?.upsertAppForNetlifySite?.app?.id`,
fetches the app schema envelope (no routing context), and only if
`!schema` — the envelope itself, not the payload inside it — creates a
default schema.  The result is the list of generated-client functions
invoked, in order. -/
def ensureAppForSite (client : GeneratedClient) (authToken siteId : String) : List String :=
  let upsertResult := client.executeUpsertAppForSiteMutation
    { nfToken := authToken, siteId := siteId } none
  let appId :=
    (((upsertResult.data.bind (·.oneGraph)).bind (·.upsertAppForNetlifySite)).bind
      (·.app)).bind (·.id)
  let schema := client.fetchAppSchemaQuery { nfToken := authToken, appId := appId } none
  if ! jsTruthyObject schema then
    ["executeUpsertAppForSiteMutation", "fetchAppSchemaQuery", "executeCreateNewSchemaMutation"]
  else
    ["executeUpsertAppForSiteMutation", "fetchAppSchemaQuery"]

/-- The parsed JSON document returned by the schema endpoint, as far as
`fetchOneGraphSchema` reads it: an object with an optional `data` field
(the introspection payload, kept opaque). -/
structure SchemaJson where
  data : Option String

/-- Environment for the raw HTTP schema path: `fetch` + `response.text()`
as one fallible step keyed by the request URL, `JSON.parse`, and
`buildClientSchema` from the graphql package.  `Except.error` models a
thrown/rejected exception. -/
structure SchemaFetchEnv where
  fetchText : String → Except String String
  parseJson : String → Except String SchemaJson
  buildClientSchema : Option String → Except String String

/-- The URL built by `fetchOneGraphSchemaJson`:
`https://serve.onegraph.com/schema?app_id=<appId>&services=<joined>`. -/
def schemaUrl (appId : String) (enabledServices : List String) : String :=
  "https://serve.onegraph.com/schema?app_id=" ++ appId ++ "&services=" ++
    String.intercalate "," enabledServices

/-- `fetchOneGraphSchemaJson(appId, enabledServices)`: fetches the URL,
parses the body, and returns the parsed document; any exception is caught,
one `internalConsole.error` line is emitted, and the function falls off
the end (resolving to `undefined` = `none`).  The first component is the
list of log lines emitted. -/
def fetchOneGraphSchemaJson (env : SchemaFetchEnv) (appId : String)
    (enabledServices : List String) : List String × Option SchemaJson :=
  let url := schemaUrl appId enabledServices
  match env.fetchText url with
  | .error error => (["Error fetching schema: " ++ error], none)
  | .ok text =>
    match env.parseJson text with
    | .error error => (["Error fetching schema: " ++ error], none)
    | .ok json => ([], some json)

/-- `fetchOneGraphSchema(appId, enabledServices)`: calls
`fetchOneGraphSchemaJson` and then `buildClientSchema(result.data)` with
no exception handling — when `result` is `undefined`, reading `.data`
throws a TypeError, modelled as `Except.error`. -/
def fetchOneGraphSchema (env : SchemaFetchEnv) (appId : String)
    (enabledServices : List String) : List String × Except String String :=
  let (logs, result) := fetchOneGraphSchemaJson env appId enabledServices
  match result with
  | none => (logs, Except.error "TypeError: Cannot read properties of undefined (reading data)")
  | some r => (logs, env.buildClientSchema r.data)

/-- A generated client whose every call resolves to `{ data: null }` with
no errors; used as a base point for concrete instances. -/
def clientNoData : GeneratedClient :=
  { fetchPersistedQueryQuery := fun _ _ => { data := none, errors := none }
    fetchCLISessionQuery := fun _ _ => { data := none, errors := none }
    executeCreateCLISessionMutation := fun _ _ => { data := none, errors := none }
    executeUpdateCLISessionMetadataMutation := fun _ _ => { data := none, errors := none }
    executeAckCLISessionEventMutation := fun _ _ => { data := none, errors := none }
    executeMarkCLISessionActiveHeartbeat := fun _ _ => { data := none, errors := none }
    executeMarkCLISessionInactive := fun _ _ => { data := none, errors := none }
    executeUpsertAppForSiteMutation := fun _ _ => { data := none, errors := none }
    fetchAppSchemaQuery := fun _ _ => { data := none, errors := none }
    executeCreateNewSchemaMutation := fun _ _ => { data := none, errors := none } }

/-- Override `fetchCLISessionQuery` with a constant RPC result. -/
def withFetchCLISessionResult (client : GeneratedClient)
    (res : GraphQLResult FetchCLISessionData) : GeneratedClient :=
  { client with fetchCLISessionQuery := fun _ _ => res }

/-- Override `executeAckCLISessionEventMutation` with a constant RPC result. -/
def withAckResult (client : GeneratedClient)
    (res : GraphQLResult AckCLISessionData) : GeneratedClient :=
  { client with executeAckCLISessionEventMutation := fun _ _ => res }

/-- Override `fetchPersistedQueryQuery` with a constant RPC result. -/
def withFetchPersistedQueryResult (client : GeneratedClient)
    (res : GraphQLResult FetchPersistedQueryData) : GeneratedClient :=
  { client with fetchPersistedQueryQuery := fun _ _ => res }

/-- Override `executeCreateCLISessionMutation` with a constant RPC result. -/
def withCreateCLISessionResult (client : GeneratedClient)
    (res : GraphQLResult CreateCLISessionData) : GeneratedClient :=
  { client with executeCreateCLISessionMutation := fun _ _ => res }

/-- Override `executeMarkCLISessionActiveHeartbeat` with a constant RPC result. -/
def withMarkActiveResult (client : GeneratedClient)
    (res : GraphQLResult UpdateCLISessionData) : GeneratedClient :=
  { client with executeMarkCLISessionActiveHeartbeat := fun _ _ => res }

/-- Override `executeMarkCLISessionInactive` with a constant RPC result. -/
def withMarkInactiveResult (client : GeneratedClient)
    (res : GraphQLResult UpdateCLISessionData) : GeneratedClient :=
  { client with executeMarkCLISessionInactive := fun _ _ => res }

/-- Concrete acknowledgment input with one event id. -/
def ackInputBoom : AckCLISessionEventsInput :=
  { appId := "site-1", authToken := "token-1", sessionId := "session-1", eventIds := ["evt-1"] }

/-- Concrete acknowledgment input with no event ids. -/
def ackInputEmpty : AckCLISessionEventsInput :=
  { appId := "site-1", authToken := "token-1", sessionId := "session-1", eventIds := [] }

/-- Concrete `fetchCliSession` options with `desiredEventCount` omitted. -/
def fcsOptionsOmitted : FetchCliSessionOptions :=
  { appId := "site-1", authToken := "token-1", sessionId := "session-1",
    desiredEventCount := none }

/-- Concrete `fetchCliSession` options with `desiredEventCount` zero. -/
def fcsOptionsZero : FetchCliSessionOptions :=
  { appId := "site-2", authToken := "token-2", sessionId := "session-2",
    desiredEventCount := some 0 }

/-- Concrete `fetchCliSessionEvents` options. -/
def fcsEventsOptions : FetchCliSessionEventsOptions :=
  { appId := "site-1", authToken := "token-1", sessionId := "session-1" }

/-- A concrete RPC result carrying a transport error and no data. -/
def cliSessionErrResult : GraphQLResult FetchCLISessionData :=
  { data := none, errors := some ["bad token"] }

/-- A schema-fetch environment whose HTTP fetch always rejects, as against
an unreachable host. -/
def unreachableHostEnv : SchemaFetchEnv :=
  { fetchText := fun _ => Except.error "FetchError: ENOTFOUND serve.onegraph.com"
    parseJson := fun _ => Except.error "SyntaxError: Unexpected token"
    buildClientSchema := fun _ => Except.ok "schema" }

/-!
Theorems.  Each claim of the specification is settled by one theorem
below (with a counterexample theorem first when the claim fails on the
source as stated).
-/

/-- C1 counterexample: `ackCLISessionEvents` does not surface the RPC
errors array.  With an RPC result `{ data: null, errors: ["boom"] }` the
operation returns `undefined`, the very same value it returns when the
RPC reports no errors at all — the non-empty errors array is dropped. -/
theorem ackCLISessionEvents_drops_errors :
    (ackCLISessionEvents
        (withAckResult clientNoData { data := none, errors := some ["boom"] }) ackInputBoom).2
      = none
    ∧ (ackCLISessionEvents
        (withAckResult clientNoData { data := none, errors := some ["boom"] }) ackInputBoom).2
      = (ackCLISessionEvents
          (withAckResult clientNoData { data := none, errors := none }) ackInputBoom).2 :=
  ⟨rfl, rfl⟩

/-- C1 (amended): among the non-schema-fetch operations, exactly
`fetchCliSession`, `executeMarkCliSessionActiveHeartbeat` and
`executeMarkCliSessionInactive` surface the RPC errors array unmodified
in their return value; `ackCLISessionEvents`, `fetchPersistedQuery` and
`createCLISession` return only the unwrapped data payload, and their
return value is independent of the errors array. -/
theorem rpc_errors_surfacing_asymmetry :
    (∀ (client : GeneratedClient) (res : GraphQLResult FetchCLISessionData)
        (options : FetchCliSessionOptions),
        ((fetchCliSession (withFetchCLISessionResult client res) options).2).errors = res.errors)
    ∧ (∀ (client : GeneratedClient) (res : GraphQLResult UpdateCLISessionData)
        (authToken appId sessionId : String),
        ((executeMarkCliSessionActiveHeartbeat (withMarkActiveResult client res)
            authToken appId sessionId).2).errors = res.errors)
    ∧ (∀ (client : GeneratedClient) (res : GraphQLResult UpdateCLISessionData)
        (authToken appId sessionId : String),
        ((executeMarkCliSessionInactive (withMarkInactiveResult client res)
            authToken appId sessionId).2).errors = res.errors)
    ∧ (∀ (client : GeneratedClient) (d : Option AckCLISessionData)
        (e e2 : Option (List String)) (input : AckCLISessionEventsInput),
        (ackCLISessionEvents (withAckResult client { data := d, errors := e }) input).2 =
          (ackCLISessionEvents (withAckResult client { data := d, errors := e2 }) input).2)
    ∧ (∀ (client : GeneratedClient) (d : Option FetchPersistedQueryData)
        (e e2 : Option (List String)) (authToken appId docId : String),
        (fetchPersistedQuery (withFetchPersistedQueryResult client { data := d, errors := e })
            authToken appId docId).2 =
          (fetchPersistedQuery (withFetchPersistedQueryResult client { data := d, errors := e2 })
            authToken appId docId).2)
    ∧ (∀ (client : GeneratedClient) (d : Option CreateCLISessionData)
        (e e2 : Option (List String)) (netlifyToken appId name : String)
        (metadata : List (String × String)),
        (createCLISession (withCreateCLISessionResult client { data := d, errors := e })
            netlifyToken appId name metadata).2 =
          (createCLISession (withCreateCLISessionResult client { data := d, errors := e2 })
            netlifyToken appId name metadata).2) :=
  ⟨fun _ _ _ => rfl, fun _ _ _ _ _ => rfl, fun _ _ _ _ _ => rfl,
    fun _ _ _ _ _ => rfl, fun _ _ _ _ _ _ _ => rfl, fun _ _ _ _ _ _ _ _ => rfl⟩

/-- C2 counterexample: with `desiredEventCount` omitted, the `first`
variable of the issued RPC is 1, not the claimed default of 1000 (the
`|| 1000` fallback is dead, since the local value was already defaulted
with `|| 1`). -/
theorem fetchCliSession_omitted_count_first_not_1000 :
    (((fetchCliSession clientNoData fcsOptionsOmitted).1).1.first = 1)
    ∧ ((((fetchCliSession clientNoData fcsOptionsOmitted).1).1.first == (1000 : Int)) = false) :=
  ⟨rfl, rfl⟩

/-- C2 (amended): for every call to `fetchCliSession` in which
`options.desiredEventCount` is omitted or equals 0, the event count
requested from the server (the `first` variable of the RPC) equals 1. -/
theorem fetchCliSession_default_first_is_one (client : GeneratedClient)
    (options : FetchCliSessionOptions)
    (h : options.desiredEventCount = none ∨ options.desiredEventCount = some 0) :
    ((fetchCliSession client options).1).1.first = 1 := by
  rcases h with h | h <;> simp [fetchCliSession, jsOrInt, h]

/-- Witness for C2's amended theorem at a concrete input with
`desiredEventCount = 0`. -/
theorem fetchCliSession_default_first_is_one_witness :
    fcsOptionsZero.desiredEventCount = some 0
    ∧ ((fetchCliSession clientNoData fcsOptionsZero).1).1.first = 1 :=
  ⟨rfl, fetchCliSession_default_first_is_one clientNoData fcsOptionsZero (Or.inr rfl)⟩

/-- C3: when the RPC result carries an errors array,
`fetchCliSessionEvents` returns that array unmodified and its `events`
field is absent (`none`); the events extraction is skipped, so nothing
can throw. -/
theorem fetchCliSessionEvents_surfaces_errors (client : GeneratedClient)
    (res : GraphQLResult FetchCLISessionData) (options : FetchCliSessionEventsOptions)
    (l : List String) (h : res.errors = some l) :
    ((fetchCliSessionEvents (withFetchCLISessionResult client res) options).2).errors = some l
    ∧ ((fetchCliSessionEvents (withFetchCLISessionResult client res) options).2).events
      = none := by
  constructor <;>
    simp [fetchCliSessionEvents, fetchCliSession, withFetchCLISessionResult, h]

/-- Witness for C3 at a concrete erroring RPC result. -/
theorem fetchCliSessionEvents_surfaces_errors_witness :
    ((fetchCliSessionEvents (withFetchCLISessionResult clientNoData cliSessionErrResult)
        fcsEventsOptions).2).errors = some ["bad token"]
    ∧ ((fetchCliSessionEvents (withFetchCLISessionResult clientNoData cliSessionErrResult)
        fcsEventsOptions).2).events = none :=
  fetchCliSessionEvents_surfaces_errors clientNoData cliSessionErrResult fcsEventsOptions
    ["bad token"] rfl

/-- C4: whenever the raw HTTP fetch rejects or JSON parsing of its body
throws, `fetchOneGraphSchemaJson` resolves to `undefined` (it does not
re-throw) and emits exactly one error line to the logging sink. -/
theorem fetchOneGraphSchemaJson_swallows_failures (env : SchemaFetchEnv)
    (appId : String) (enabledServices : List String)
    (h : (∃ e, env.fetchText (schemaUrl appId enabledServices) = Except.error e)
      ∨ (∃ t e, env.fetchText (schemaUrl appId enabledServices) = Except.ok t
          ∧ env.parseJson t = Except.error e)) :
    (fetchOneGraphSchemaJson env appId enabledServices).2 = none
    ∧ ((fetchOneGraphSchemaJson env appId enabledServices).1).length = 1 := by
  rcases h with ⟨e, he⟩ | ⟨t, e, ht, he⟩
  · simp [fetchOneGraphSchemaJson, he]
  · simp [fetchOneGraphSchemaJson, ht, he]

/-- Witness for C4 against the unreachable-host environment. -/
theorem fetchOneGraphSchemaJson_swallows_failures_witness :
    (fetchOneGraphSchemaJson unreachableHostEnv "app-1" ["GITHUB"]).2 = none
    ∧ ((fetchOneGraphSchemaJson unreachableHostEnv "app-1" ["GITHUB"]).1).length = 1 :=
  fetchOneGraphSchemaJson_swallows_failures unreachableHostEnv "app-1" ["GITHUB"]
    (Or.inl ⟨"FetchError: ENOTFOUND serve.onegraph.com", rfl⟩)

/-- C5 counterexample: `friendlyEventName` has no recursion guard.  On a
`OneGraphNetlifyCliSessionTestEvent` whose payload points back at the
event itself, no step budget suffices for the call to return — the
source recurses without bound. -/
theorem friendlyEventName_cyclic_diverges :
    FriendlyEventNameDiverges cyclicTestEventHeap 0 := by
  intro fuel
  induction fuel with
  | zero => rfl
  | succ n ih => simpa [friendlyEventNameRun, cyclicTestEventHeap] using ih

/-- C5 (amended): `friendlyEventName` terminates (with the value the
finite-tree semantics assigns) on every event whose payload chain is a
finite tree; there is no depth cap, so termination relies on the input
being acyclic. -/
theorem friendlyEventNameRun_of_represents (h : EventHeap) (p : Option Nat) (v : JsValue)
    (hr : Represents h p v) :
    friendlyEventNameRun h (jsSize v) p = some (friendlyEventName v) := by
  induction hr with
  | undef => rfl
  | obj a pv hrec ih =>
    show friendlyEventNameRun h (jsSize pv + 1) (some a) = _
    rw [friendlyEventNameRun, friendlyEventName]
    split
    · exact ih
    · split
      · rfl
      · split <;> rfl

/-- Witness for C5's amended theorem: a finite TestEvent-wrapped
GenerateHandler event evaluates to the handler label. -/
theorem friendlyEventNameRun_of_represents_witness :
    friendlyEventNameRun finiteTestEventHeap 3 (some 0)
      = some (Except.ok "Generate handler as Netlify function ") :=
  friendlyEventNameRun_of_represents finiteTestEventHeap (some 0) finiteTestEventValue
    (Represents.obj 0 _ (Represents.obj 1 JsValue.undef Represents.undef))

/-- C6: `friendlyEventName` of a `OneGraphNetlifyCliSessionTestEvent`
wrapping payload `e` is exactly `friendlyEventName e`. -/
theorem friendlyEventName_testEvent_unwraps (e : JsValue) :
    friendlyEventName (JsValue.obj (some "OneGraphNetlifyCliSessionTestEvent") e)
      = friendlyEventName e := by
  rw [friendlyEventName, if_pos rfl]

/-- C7: on any event object whose `__typename` is not one of the three
recognized kinds, `friendlyEventName` returns (never throws) the fallback
label with the raw discriminant embedded in it. -/
theorem friendlyEventName_unrecognized (s : String) (p : JsValue)
    (h1 : s ≠ "OneGraphNetlifyCliSessionTestEvent")
    (h2 : s ≠ "OneGraphNetlifyCliSessionGenerateHandlerEvent")
    (h3 : s ≠ "OneGraphNetlifyCliSessionPersistedLibraryUpdatedEvent") :
    friendlyEventName (JsValue.obj (some s) p)
      = Except.ok ("Unrecognized event (" ++ s ++ ")") := by
  rw [friendlyEventName, if_neg (by simpa using h1), if_neg (by simpa using h2),
    if_neg (by simpa using h3)]
  rfl

/-- Witness for C7 at the discriminant `"FooEvent"`. -/
theorem friendlyEventName_unrecognized_witness :
    friendlyEventName (JsValue.obj (some "FooEvent") JsValue.undef)
      = Except.ok "Unrecognized event (FooEvent)" :=
  friendlyEventName_unrecognized "FooEvent" JsValue.undef (by decide) (by decide) (by decide)

/-- C8: with an empty `eventIds` list, `ackCLISessionEvents` still issues
the acknowledgment RPC — with `eventIds: []` and context
`{ siteId: appId }` — and returns the unwrapped mutation payload
normally. -/
theorem ackCLISessionEvents_empty_roundtrip (client : GeneratedClient)
    (input : AckCLISessionEventsInput) (h : input.eventIds = []) :
    ((ackCLISessionEvents client input).1).1
      = { nfToken := input.authToken, sessionId := input.sessionId, eventIds := [] }
    ∧ ((ackCLISessionEvents client input).1).2 = some { siteId := input.appId }
    ∧ (ackCLISessionEvents client input).2
      = ((client.executeAckCLISessionEventMutation
            { nfToken := input.authToken, sessionId := input.sessionId, eventIds := [] }
            (some { siteId := input.appId })).data.bind (·.oneGraph)).bind
          (·.ackNetlifyCliEvents) := by
  refine ⟨?_, rfl, ?_⟩ <;> simp [ackCLISessionEvents, h]

/-- Witness for C8 at a concrete empty acknowledgment. -/
theorem ackCLISessionEvents_empty_roundtrip_witness :
    ackInputEmpty.eventIds = []
    ∧ (((ackCLISessionEvents clientNoData ackInputEmpty).1).1
        = { nfToken := ackInputEmpty.authToken, sessionId := ackInputEmpty.sessionId,
            eventIds := [] }
      ∧ ((ackCLISessionEvents clientNoData ackInputEmpty).1).2
        = some { siteId := ackInputEmpty.appId }
      ∧ (ackCLISessionEvents clientNoData ackInputEmpty).2
        = ((clientNoData.executeAckCLISessionEventMutation
              { nfToken := ackInputEmpty.authToken, sessionId := ackInputEmpty.sessionId,
                eventIds := [] }
              (some { siteId := ackInputEmpty.appId })).data.bind (·.oneGraph)).bind
            (·.ackNetlifyCliEvents)) :=
  ⟨rfl, ackCLISessionEvents_empty_roundtrip clientNoData ackInputEmpty rfl⟩

/-- C9: whenever `fetchOneGraphSchemaJson` resolves to `undefined`, the
wrapper `fetchOneGraphSchema` throws the TypeError raised by reading
`.data` of `undefined` — the swallow-to-undefined policy does not extend
to it. -/
theorem fetchOneGraphSchema_throws_on_undefined (env : SchemaFetchEnv)
    (appId : String) (enabledServices : List String)
    (h : (fetchOneGraphSchemaJson env appId enabledServices).2 = none) :
    (fetchOneGraphSchema env appId enabledServices).2
      = Except.error "TypeError: Cannot read properties of undefined (reading data)" := by
  simp [fetchOneGraphSchema, h]

/-- Witness for C9 against the unreachable-host environment. -/
theorem fetchOneGraphSchema_throws_on_undefined_witness :
    (fetchOneGraphSchema unreachableHostEnv "app-2" ["SALESFORCE"]).2
      = Except.error "TypeError: Cannot read properties of undefined (reading data)" :=
  fetchOneGraphSchema_throws_on_undefined unreachableHostEnv "app-2" ["SALESFORCE"] rfl

/-- C10: `ensureAppForSite` tests the always-truthy RPC envelope returned
by `fetchAppSchemaQuery`, so for every client behaviour it performs
exactly the upsert and the schema fetch and never invokes
`executeCreateNewSchemaMutation`. -/
theorem ensureAppForSite_never_creates_schema (client : GeneratedClient)
    (authToken siteId : String) :
    ensureAppForSite client authToken siteId
      = ["executeUpsertAppForSiteMutation", "fetchAppSchemaQuery"] := by
  simp [ensureAppForSite, jsTruthyObject]

end OneGraphClient
